import Mathlib

/-!
# Verification of `django_gcp_log_groups/gcp_logging.py`

Shallow embedding of the request-log correlation middleware:
`GCPHandler.emit`, `GCPLoggingMiddleware.__call__` and
`GCPLoggingMiddleware.make_parent_log`, together with the module-level
trace derivation and severity aggregation they perform.

Modelling conventions:
* the module-global mutable state (`MLOGLEVELS`, the two background
  transports modelled as lists of sent entries, and the root logger's
  handler list modelled as a registration flag) is an explicit
  `LogState` threaded through the functions;
* `random.choice(chars)` is modelled by an arbitrary choice function
  `rng : Nat → Nat` reduced modulo the length of the alphabet, so every
  theorem about synthesized traces holds for every possible stream of
  random draws;
* wall-clock time appears only through the elapsed duration
  `time.time() - start_time`, modelled exactly in units of `10 ^ (-5)`
  seconds (the resolution printed by `"%.5fs"`); float rounding below
  that resolution is abstracted away;
* Python string `min` is lexicographic comparison on code points, which
  coincides with Lean's `String` order.
-/

namespace GcpLogging

/-- Process configuration read once at module import: the GCP project,
the root logger's minimum level (`LOGGER.setLevel(logging.INFO)` sets it
to 20), the `GCP_LOG_USE_X_HTTP_CLOUD_CONTEXT` Django setting, and the
resolved `REMOTE_IP_HEADER` META key. -/
structure Config where
  project : String
  loggerLevel : Nat
  useXCloudContext : Bool
  remoteIpHeader : String
deriving Repr, DecidableEq

/-- The slice of a Django request the middleware reads: `request.method`,
`request.get_full_path()` and the `request.META` mapping. -/
structure Request where
  method : String
  fullPath : String
  meta : String → Option String

/-- The slice of a Django response the middleware reads:
`response.status_code` and `response.get("Content-Length")`. -/
structure Response where
  status_code : Nat
  contentLength : Option String
deriving Repr, DecidableEq

/-- A Python `logging.LogRecord` as seen by `GCPHandler.emit`: its level
name and its formatted message. -/
structure LogRecord where
  levelname : String
  msg : String
deriving Repr, DecidableEq

/-- The `http_request` dict built by `make_parent_log`
(google `HttpRequest` proto fields). -/
structure HttpRequestInfo where
  requestMethod : String
  requestUrl : String
  requestSize : String
  remoteIp : String
  status : Nat
  responseSize : String
  latency : String
  userAgent : Option String
  referer : Option String
deriving Repr, DecidableEq

/-- One entry handed to a `BackgroundThreadTransport.send` call. -/
structure LogEntry where
  message : Option String
  severity : String
  trace : String
  span_id : Option String
  http_request : Option HttpRequestInfo
deriving Repr, DecidableEq

/-- The module-global mutable state: the `MLOGLEVELS` list, the entries
sent so far on the child and parent transports, and whether the
per-request `GCPHandler` is currently attached to the root logger. -/
structure LogState where
  mloglevels : List String
  childSent : List LogEntry
  parentSent : List LogEntry
  handlerRegistered : Bool
deriving Repr, DecidableEq

/-- Numeric value of a level name, as `getattr(logging, record.levelname)`
resolves the standard names of the Python `logging` module. -/
def pyLevel : String → Nat
  | "CRITICAL" => 50
  | "FATAL" => 50
  | "ERROR" => 40
  | "WARNING" => 30
  | "WARN" => 30
  | "INFO" => 20
  | "DEBUG" => 10
  | _ => 0

/-- Python truthiness of an optional string (`if trace:`): present and
non-empty. -/
def pyTruthy : Option String → Bool
  | some s => s ≠ ""
  | none => false

/-- Python `x or 0` applied to an optional string META/header value, as
in `request.META.get("CONTENT_LENGTH") or 0`: a missing or empty value
becomes the number `0`, rendered here as the string of that number. -/
def pyOrZero : Option String → String
  | some s => if s = "" then "0" else s
  | none => "0"

/-- Lexicographic code-point comparison of two character lists: Python's
`<` on strings. -/
def pyCharsLt : List Char → List Char → Bool
  | [], [] => false
  | [], _ :: _ => true
  | _ :: _, [] => false
  | a :: as, b :: bs =>
      if a.val < b.val then true
      else if b.val < a.val then false
      else pyCharsLt as bs

/-- Python `min` of two strings: lexicographic, keeping the first
argument on ties. -/
def pyStrMin (a b : String) : String :=
  if pyCharsLt b.toList a.toList then b else a

/-- Python `min` over a non-empty list of strings (`min(MLOGLEVELS)`);
returns `""` on the empty list, which the code never reaches. -/
def pyMin : List String → String
  | [] => ""
  | x :: xs => xs.foldl pyStrMin x

/-- Maximum of a list of level names under the severity order
DEBUG < INFO < WARNING < ERROR < CRITICAL, as the spec's aggregation
rule states it; `""` on the empty list. This is the SPEC's rule, kept
for comparison against the code's `min(MLOGLEVELS)`. -/
def specSevMax : List String → String
  | [] => ""
  | x :: xs => xs.foldl (fun acc s => if pyLevel acc < pyLevel s then s else acc) x

/-- Split a character list at every occurrence of `sep`, keeping empty
segments: Python's `str.split(sep)` for a one-character separator. -/
def splitOnChar (sep : Char) : List Char → List (List Char)
  | [] => [[]]
  | c :: cs =>
      let rest := splitOnChar sep cs
      if c = sep then [] :: rest
      else
        match rest with
        | [] => [[c]]
        | r :: rs => (c :: r) :: rs

/-- Python `s.split(sep)` for a one-character separator, on strings. -/
def pySplit (s : String) (sep : Char) : List String :=
  (splitOnChar sep s.toList).map String.mk

/-- The alphabet `chars` used to synthesize a trace id. -/
def synthTraceChars : String := "abcdefghijklmnopqrstuvwxyz1234567890"

theorem synthTraceChars_length : synthTraceChars.toList.length = 36 := rfl

/-- Synthesized trace id:
`"".join([random.choice(chars) for x in range(0, 32)])`, with the
`i`-th `random.choice` modelled as the element of `chars` at index
`rng i % 36`. -/
def synthTrace (rng : Nat → Nat) : String :=
  String.mk ((List.range 32).map (fun i =>
    synthTraceChars.toList.get
      ⟨rng i % 36, synthTraceChars_length ▸ Nat.mod_lt _ (by decide)⟩))

/-- Trace/span derivation of `GCPLoggingMiddleware.__call__` (lines
84–98), before the `projects/<project>/traces/` prefixing: the
`HTTP_X_CLOUD_TRACE_CONTEXT` header is read only when
`USE_X_HTTP_CLOUD_CONTEXT` is set; a truthy header is split on `/`
(trace = first segment, span = second segment up to `;` when present);
otherwise a 32-character trace id is synthesized. -/
def deriveTraceSpan (cfg : Config) (rng : Nat → Nat) (req : Request) :
    String × Option String :=
  let traceHdr : Option String :=
    if cfg.useXCloudContext then req.meta "HTTP_X_CLOUD_TRACE_CONTEXT" else none
  if pyTruthy traceHdr then
    let s := traceHdr.getD ""
    let rawTrace := pySplit s '/'
    let trace := rawTrace.headD ""
    let span : Option String :=
      if rawTrace.length > 1 then
        some ((pySplit (rawTrace.getD 1 "") ';').headD "")
      else none
    (trace, span)
  else
    (synthTrace rng, none)

/-- Decimal digits of `n % 100000`, zero-padded to width 5: the
fractional part printed by `"%.5fs"` when the elapsed time is an exact
multiple of `10 ^ (-5)` seconds. -/
def pad5 (n : Nat) : String :=
  String.mk [Nat.digitChar (n / 10000 % 10), Nat.digitChar (n / 1000 % 10),
    Nat.digitChar (n / 100 % 10), Nat.digitChar (n / 10 % 10),
    Nat.digitChar (n % 10)]

/-- Models `"%.5fs" % (time.time() - start_time)` with the elapsed time
given exactly in units of `10 ^ (-5)` seconds. -/
def formatLatency (elapsed : Nat) : String :=
  toString (elapsed / 100000) ++ "." ++ pad5 (elapsed % 100000) ++ "s"

/-- The `REQUEST` dict built by `make_parent_log` (lines 117–131). -/
def buildRequestInfo (cfg : Config) (req : Request) (resp : Response)
    (elapsed : Nat) : HttpRequestInfo :=
  { requestMethod := req.method
    requestUrl := req.fullPath
    requestSize := pyOrZero (req.meta "CONTENT_LENGTH")
    remoteIp := (req.meta cfg.remoteIpHeader).getD "unknown"
    status := resp.status_code
    responseSize := pyOrZero resp.contentLength
    latency := formatLatency elapsed
    userAgent := if pyTruthy (req.meta "HTTP_USER_AGENT") then
        req.meta "HTTP_USER_AGENT" else none
    referer := if pyTruthy (req.meta "HTTP_REFERER") then
        req.meta "HTTP_REFERER" else none }

/-- `GCPHandler.emit` (lines 60–76): a record below the root logger's
level is skipped; otherwise its level name is appended to `MLOGLEVELS`
and the formatted message is sent on the child transport tagged with the
request's trace and span. -/
def emit (cfg : Config) (trace : String) (span : Option String)
    (record : LogRecord) (st : LogState) : LogState :=
  if pyLevel record.levelname < cfg.loggerLevel then st
  else
    { st with
      mloglevels := st.mloglevels ++ [record.levelname]
      childSent := st.childSent ++ [{
        message := some record.msg
        severity := record.levelname
        trace := trace
        span_id := span
        http_request := none }] }

/-- `GCPLoggingMiddleware.make_parent_log` (lines 114–156): build the
`http_request` record, compute the parent severity (`min(MLOGLEVELS)`
when non-empty, else from the HTTP status), clear `MLOGLEVELS`, and —
unless `USE_X_HTTP_CLOUD_CONTEXT` is set — send one parent entry with no
message. -/
def make_parent_log (cfg : Config) (trace : String) (span : Option String)
    (req : Request) (resp : Response) (elapsed : Nat) (st : LogState) :
    LogState :=
  let info := buildRequestInfo cfg req resp elapsed
  let severity :=
    if st.mloglevels.length = 0 then
      if resp.status_code ≥ 500 then "ERROR"
      else if resp.status_code ≥ 400 then "WARNING"
      else "INFO"
    else pyMin st.mloglevels
  let st1 := { st with mloglevels := ([] : List String) }
  if cfg.useXCloudContext then st1
  else
    { st1 with
      parentSent := st1.parentSent ++ [{
        message := none
        severity := severity
        trace := trace
        span_id := span
        http_request := some info }] }

/-- `GCPLoggingMiddleware.__call__` (lines 83–112), on the module state
`init`: derive and prefix the trace, register the handler, run the
downstream handler — modelled by the list of log records the application
emits and a result that is either the response or a raised exception —
then, only when `get_response` returned normally, call `make_parent_log`
and remove the handler (the source has no `try/finally`, so on an
exception the statements after `get_response` do not run). Returns the
final module state together with the propagated result. -/
def call (cfg : Config) (rng : Nat → Nat) (req : Request)
    (records : List LogRecord) (result : Except Unit Response)
    (elapsed : Nat) (init : LogState) : LogState × Except Unit Response :=
  let ts := deriveTraceSpan cfg rng req
  let trace := "projects/" ++ cfg.project ++ "/traces/" ++ ts.1
  let span := ts.2
  let st0 := { init with handlerRegistered := true }
  let st1 := records.foldl (fun s r => emit cfg trace span r s) st0
  match result with
  | Except.error e => (st1, Except.error e)
  | Except.ok resp =>
      let st2 := make_parent_log cfg trace span req resp elapsed st1
      ({ st2 with handlerRegistered := false }, Except.ok resp)

/-- Severity names that would be appended to `MLOGLEVELS` by running the
records through `GCPHandler.emit` against a logger minimum level `lvl`:
the levels at or above `lvl`, in emission order. -/
def trackLevels (lvl : Nat) : List LogRecord → List String → List String
  | [], acc => acc
  | r :: rs, acc =>
      trackLevels lvl rs (if pyLevel r.levelname < lvl then acc else acc ++ [r.levelname])

/-- A fixed stream of random draws, for concrete instantiations. -/
def rng0 : Nat → Nat := fun _ => 0

/-- Self-emit configuration: `USE_X_HTTP_CLOUD_CONTEXT` unset, logger at
INFO (20) as `LOGGER.setLevel(logging.INFO)` sets it. -/
def cfgSelf : Config :=
  { project := "p", loggerLevel := 20, useXCloudContext := false,
    remoteIpHeader := "REMOTE_ADDR" }

/-- External-propagation configuration: `GCP_LOG_USE_X_HTTP_CLOUD_CONTEXT`
set to true. -/
def cfgExt : Config :=
  { project := "p", loggerLevel := 20, useXCloudContext := true,
    remoteIpHeader := "REMOTE_ADDR" }

/-- A request carrying no META entries at all. -/
def reqPlain : Request :=
  { method := "GET", fullPath := "/x", meta := fun _ => none }

/-- A request whose only META entry is the `X-Cloud-Trace-Context`
header with value `v`. -/
def reqWithHeader (v : String) : Request :=
  { method := "GET", fullPath := "/x",
    meta := fun k => if k = "HTTP_X_CLOUD_TRACE_CONTEXT" then some v else none }

/-- A response with the given status and no Content-Length header. -/
def respOf (n : Nat) : Response := { status_code := n, contentLength := none }

/-- The fresh module state at process start. -/
def st0 : LogState :=
  { mloglevels := [], childSent := [], parentSent := [], handlerRegistered := false }

theorem emit_parentSent (cfg : Config) (trace : String) (span : Option String)
    (record : LogRecord) (st : LogState) :
    (emit cfg trace span record st).parentSent = st.parentSent := by
  simp only [emit]; split <;> rfl

theorem emit_handlerRegistered (cfg : Config) (trace : String)
    (span : Option String) (record : LogRecord) (st : LogState) :
    (emit cfg trace span record st).handlerRegistered = st.handlerRegistered := by
  simp only [emit]; split <;> rfl

theorem emit_mloglevels (cfg : Config) (trace : String) (span : Option String)
    (record : LogRecord) (st : LogState) :
    (emit cfg trace span record st).mloglevels =
      if pyLevel record.levelname < cfg.loggerLevel then st.mloglevels
      else st.mloglevels ++ [record.levelname] := by
  simp only [emit]; split <;> rfl

theorem foldl_emit_parentSent (cfg : Config) (trace : String)
    (span : Option String) (records : List LogRecord) (st : LogState) :
    ((records.foldl (fun s r => emit cfg trace span r s) st).parentSent) =
      st.parentSent := by
  induction records generalizing st with
  | nil => rfl
  | cons r rs ih => simpa [List.foldl_cons, emit_parentSent] using ih (emit cfg trace span r st)

theorem foldl_emit_handlerRegistered (cfg : Config) (trace : String)
    (span : Option String) (records : List LogRecord) (st : LogState) :
    ((records.foldl (fun s r => emit cfg trace span r s) st).handlerRegistered) =
      st.handlerRegistered := by
  induction records generalizing st with
  | nil => rfl
  | cons r rs ih =>
      simpa [List.foldl_cons, emit_handlerRegistered]
        using ih (emit cfg trace span r st)

theorem foldl_emit_mloglevels (cfg : Config) (trace : String)
    (span : Option String) (records : List LogRecord) (st : LogState) :
    ((records.foldl (fun s r => emit cfg trace span r s) st).mloglevels) =
      trackLevels cfg.loggerLevel records st.mloglevels := by
  induction records generalizing st with
  | nil => rfl
  | cons r rs ih =>
      have h := ih (emit cfg trace span r st)
      simp only [List.foldl_cons, trackLevels] at h ⊢
      rw [h, emit_mloglevels]

/-- C7: while a request's handler is registered, a record at or above the
configured minimum level has its severity recorded into `MLOGLEVELS` and
its message forwarded to the child transport tagged with the request's
trace and span; a record below the minimum level is neither recorded nor
forwarded. -/
theorem c7_emit_records_and_forwards_iff_at_level (cfg : Config)
    (trace : String) (span : Option String) (record : LogRecord)
    (st : LogState) :
    (cfg.loggerLevel ≤ pyLevel record.levelname →
      emit cfg trace span record st =
        { st with
          mloglevels := st.mloglevels ++ [record.levelname]
          childSent := st.childSent ++ [{
            message := some record.msg
            severity := record.levelname
            trace := trace
            span_id := span
            http_request := none }] })
    ∧ (pyLevel record.levelname < cfg.loggerLevel →
      emit cfg trace span record st = st) := by
  constructor
  · intro h
    simp only [emit, if_neg (Nat.not_lt.mpr h)]
  · intro h
    simp only [emit, if_pos h]

/-- C7 witness: with the logger at INFO (20), a WARNING record is both
recorded and forwarded, and a DEBUG record leaves the state unchanged. -/
theorem c7_witness :
    emit cfgSelf "t" none { levelname := "WARNING", msg := "m" } st0 =
      { st0 with
        mloglevels := ["WARNING"]
        childSent := [{
          message := some "m"
          severity := "WARNING"
          trace := "t"
          span_id := none
          http_request := none }] }
    ∧ emit cfgSelf "t" none { levelname := "DEBUG", msg := "m" } st0 = st0 := by
  constructor
  · have h := (c7_emit_records_and_forwards_iff_at_level cfgSelf "t" none
      { levelname := "WARNING", msg := "m" } st0).1 (by decide)
    simpa [st0] using h
  · exact (c7_emit_records_and_forwards_iff_at_level cfgSelf "t" none
      { levelname := "DEBUG", msg := "m" } st0).2 (by decide)

/-- C8: finalization clears the severity tracker in both modes —
`make_parent_log` always leaves `MLOGLEVELS` empty, and a completed
request (normal return) always ends with an empty tracker, so the next
sequential request starts from an empty tracker. -/
theorem c8_tracker_empty_after_finalization (cfg : Config) (trace : String)
    (span : Option String) (req : Request) (resp : Response) (elapsed : Nat)
    (st : LogState) (rng : Nat → Nat) (records : List LogRecord)
    (init : LogState) :
    (make_parent_log cfg trace span req resp elapsed st).mloglevels = []
    ∧ ((call cfg rng req records (Except.ok resp) elapsed init).1).mloglevels = [] := by
  constructor
  · simp only [make_parent_log]
    split <;> rfl
  · simp only [call, make_parent_log]
    split <;> rfl

/-- C5: when no child record was tracked (empty `MLOGLEVELS`) and the
process self-emits parent entries, `make_parent_log` appends exactly one
parent entry whose severity is derived from the HTTP status alone:
ERROR for 5xx, WARNING for 4xx, INFO otherwise. -/
theorem c5_status_derived_severity (cfg : Config)
    (hx : cfg.useXCloudContext = false) (trace : String) (span : Option String)
    (req : Request) (resp : Response) (elapsed : Nat) (st : LogState)
    (hml : st.mloglevels = []) :
    ∃ e : LogEntry,
      (make_parent_log cfg trace span req resp elapsed st).parentSent =
        st.parentSent ++ [e]
      ∧ (500 ≤ resp.status_code → e.severity = "ERROR")
      ∧ (400 ≤ resp.status_code → resp.status_code < 500 → e.severity = "WARNING")
      ∧ (resp.status_code < 400 → e.severity = "INFO") := by
  refine ⟨{ message := none
            severity :=
              if resp.status_code ≥ 500 then "ERROR"
              else if resp.status_code ≥ 400 then "WARNING"
              else "INFO"
            trace := trace
            span_id := span
            http_request := some (buildRequestInfo cfg req resp elapsed) }, ?_, ?_, ?_, ?_⟩
  · simp [make_parent_log, hx, hml]
  · intro h
    simp [if_pos h]
  · intro h1 h2
    rw [if_neg (by omega), if_pos h1]
  · intro h
    rw [if_neg (by omega), if_neg (by omega)]

/-- C5 witness: a request with no tracked child records and a 503
response yields a parent entry of severity ERROR. -/
theorem c5_witness :
    ∃ e : LogEntry,
      (make_parent_log cfgSelf "t" none reqPlain (respOf 503) 5 st0).parentSent = [e]
      ∧ e.severity = "ERROR" := by
  obtain ⟨e, h1, h2, -, -⟩ :=
    c5_status_derived_severity cfgSelf rfl "t" none reqPlain (respOf 503) 5 st0 rfl
  exact ⟨e, by simpa [st0] using h1, h2 (by decide)⟩

/-- C1: the claim that the parent severity is the maximum of the tracked
severities fails on the code: `make_parent_log` computes
`min(MLOGLEVELS)` over the level-name strings (lexicographic order), so
tracked severities INFO and WARNING yield parent severity "INFO" even
though their maximum under DEBUG < INFO < WARNING < ERROR < CRITICAL is
"WARNING" — contradicting the code's own comment "apply the max level to
the root log message". -/
theorem c1_parent_severity_is_string_min_not_max :
    ((make_parent_log cfgSelf "t" none reqPlain (respOf 200) 5
        { mloglevels := ["INFO", "WARNING"], childSent := [], parentSent := [],
          handlerRegistered := true }).parentSent.map LogEntry.severity) = ["INFO"]
    ∧ specSevMax ["INFO", "WARNING"] = "WARNING"
    ∧ pyLevel "INFO" < pyLevel "WARNING" := by
  decide

/-- C2 counterexample: `__call__` has no `try/finally`, so on a request
whose downstream handler raises, the capture-point handler is still
registered when the middleware exits and no severity (in particular no
ERROR) is aggregated — refuting the claim at a concrete input. -/
theorem c2_exception_leaves_handler_registered :
    ((call cfgSelf rng0 reqPlain [] (Except.error ()) 5 st0).1).handlerRegistered = true
    ∧ ((call cfgSelf rng0 reqPlain [] (Except.error ()) 5 st0).1).parentSent = [] := by
  constructor <;> rfl

/-- C2 amended: the capture-point handler is unregistered only on
requests where `get_response` returns normally; when it raises, the
exception propagates to the caller with the handler still registered and
no parent aggregation of any severity takes place. -/
theorem c2_unregister_only_on_normal_return (cfg : Config) (rng : Nat → Nat)
    (req : Request) (records : List LogRecord) (elapsed : Nat)
    (init : LogState) (resp : Response) :
    ((call cfg rng req records (Except.error ()) elapsed init).1).handlerRegistered = true
    ∧ ((call cfg rng req records (Except.error ()) elapsed init).1).parentSent = init.parentSent
    ∧ (call cfg rng req records (Except.error ()) elapsed init).2 = Except.error ()
    ∧ ((call cfg rng req records (Except.ok resp) elapsed init).1).handlerRegistered = false := by
  refine ⟨?_, ?_, rfl, rfl⟩
  · simpa using foldl_emit_handlerRegistered cfg _ _ records
      { init with handlerRegistered := true }
  · simpa using foldl_emit_parentSent cfg _ _ records
      { init with handlerRegistered := true }

/-- C3 counterexample: in external-propagation mode, a present but
malformed header `"abc123"` (not of the form `<trace>/<span>;o=<flag>`)
does NOT fall back to a synthesized trace-id: the derived trace-id is
the header text itself, of length 6, whereas synthesized ids have
length 32. -/
theorem c3_malformed_header_not_synthesized :
    deriveTraceSpan cfgExt rng0 (reqWithHeader "abc123") = ("abc123", none)
    ∧ "abc123".length ≠ 32
    ∧ (synthTrace rng0).length = 32 := by
  refine ⟨by decide, by decide, rfl⟩

/-- C3 amended: in external-propagation mode a present, non-empty but
malformed header is parsed leniently — the text before the first `/`
becomes the trace-id (no synthesis occurs), and when the header contains
no `/` at all there is no span; a trace-id is synthesized only when the
header is absent or empty; derivation is total and the malformation is
never surfaced to the caller: the downstream result is returned
unchanged. -/
theorem c3_malformed_header_lenient_parse (cfg : Config)
    (h : cfg.useXCloudContext = true) (rng : Nat → Nat) (req : Request)
    (s : String) (hm : req.meta "HTTP_X_CLOUD_TRACE_CONTEXT" = some s)
    (hs : s ≠ "") (records : List LogRecord) (result : Except Unit Response)
    (elapsed : Nat) (init : LogState) :
    (deriveTraceSpan cfg rng req).1 = (pySplit s '/').headD ""
    ∧ ((pySplit s '/').length ≤ 1 → (deriveTraceSpan cfg rng req).2 = none)
    ∧ (∀ req' : Request, req'.meta "HTTP_X_CLOUD_TRACE_CONTEXT" = none →
        deriveTraceSpan cfg rng req' = (synthTrace rng, none))
    ∧ (call cfg rng req records result elapsed init).2 = result := by
  refine ⟨?_, ?_, ?_, ?_⟩
  · simp [deriveTraceSpan, h, hm, pyTruthy, hs]
  · intro hlen
    simp [deriveTraceSpan, h, hm, pyTruthy, hs, Nat.not_lt.mpr hlen]
  · intro req' hm'
    simp [deriveTraceSpan, h, hm', pyTruthy]
  · cases result <;> rfl

/-- C3 witness for the amended claim: the malformed header `"abc123"`
yields trace-id `"abc123"` (its only `/`-segment), no span, and the
downstream response is passed through unchanged. -/
theorem c3_witness :
    (deriveTraceSpan cfgExt rng0 (reqWithHeader "abc123")).1 = (pySplit "abc123" '/').headD ""
    ∧ (deriveTraceSpan cfgExt rng0 (reqWithHeader "abc123")).2 = none
    ∧ (call cfgExt rng0 (reqWithHeader "abc123") [] (Except.ok (respOf 200)) 5 st0).2
        = Except.ok (respOf 200) := by
  obtain ⟨h1, h2, -, h4⟩ :=
    c3_malformed_header_lenient_parse cfgExt rfl rng0 (reqWithHeader "abc123")
      "abc123" rfl (by decide) [] (Except.ok (respOf 200)) 5 st0
  exact ⟨h1, h2 (by decide), h4⟩

/-- C4: in the mode where the inbound header is trusted, a header
`"abc123/456;o=1"` parses to trace-id `abc123` with span `456`, a header
`"abc123"` parses to trace-id `abc123` with no span, and an absent
header yields a synthesized trace-id of exactly 32 characters drawn from
the alphabet `[a-z0-9]`, with no span — for every possible stream of
random draws. -/
theorem c4_trace_header_parsing (cfg : Config)
    (h : cfg.useXCloudContext = true) (rng : Nat → Nat) :
    (∀ req : Request, req.meta "HTTP_X_CLOUD_TRACE_CONTEXT" = some "abc123/456;o=1" →
      deriveTraceSpan cfg rng req = ("abc123", some "456"))
    ∧ (∀ req : Request, req.meta "HTTP_X_CLOUD_TRACE_CONTEXT" = some "abc123" →
      deriveTraceSpan cfg rng req = ("abc123", none))
    ∧ (∀ req : Request, req.meta "HTTP_X_CLOUD_TRACE_CONTEXT" = none →
      deriveTraceSpan cfg rng req = (synthTrace rng, none))
    ∧ (synthTrace rng).length = 32
    ∧ (∀ c ∈ (synthTrace rng).toList, c ∈ synthTraceChars.toList) := by
  refine ⟨?_, ?_, ?_, ?_, ?_⟩
  · intro req hm
    simp only [deriveTraceSpan, h, if_true, hm]
    rw [if_pos (by decide : pyTruthy (some "abc123/456;o=1") = true)]
    decide
  · intro req hm
    simp only [deriveTraceSpan, h, if_true, hm]
    rw [if_pos (by decide : pyTruthy (some "abc123") = true)]
    decide
  · intro req hm
    simp [deriveTraceSpan, h, hm, pyTruthy]
  · show ((List.range 32).map _).length = 32
    simp
  · intro c hc
    simp only [synthTrace, String.toList, List.mem_map] at hc
    obtain ⟨i, -, rfl⟩ := hc
    exact List.get_mem _ _ _

/-- C4 witness: concrete requests exercising all three header shapes,
with the all-zeros draw stream for the synthesized case. -/
theorem c4_witness :
    deriveTraceSpan cfgExt rng0 (reqWithHeader "abc123/456;o=1") = ("abc123", some "456")
    ∧ deriveTraceSpan cfgExt rng0 (reqWithHeader "abc123") = ("abc123", none)
    ∧ deriveTraceSpan cfgExt rng0 reqPlain = (synthTrace rng0, none)
    ∧ (synthTrace rng0).length = 32 := by
  obtain ⟨h1, h2, h3, h4, -⟩ := c4_trace_header_parsing cfgExt rfl rng0
  exact ⟨h1 _ rfl, h2 _ rfl, h3 _ rfl, h4⟩

/-- C10: in self-emit mode the inbound trace header is never consulted —
for every request, even one carrying a well-formed header, the trace-id
is freshly synthesized (32 characters) and the span is absent, and the
derivation does not depend on the request at all. -/
theorem c10_header_ignored_in_self_emit (cfg : Config)
    (h : cfg.useXCloudContext = false) (rng : Nat → Nat) (req : Request) :
    deriveTraceSpan cfg rng req = (synthTrace rng, none)
    ∧ (synthTrace rng).length = 32
    ∧ (∀ req' : Request, deriveTraceSpan cfg rng req' = deriveTraceSpan cfg rng req) := by
  refine ⟨?_, ?_, ?_⟩
  · simp [deriveTraceSpan, h, pyTruthy]
  · show ((List.range 32).map _).length = 32
    simp
  · intro req'
    simp [deriveTraceSpan, h, pyTruthy]

/-- C10 witness: with `USE_X_HTTP_CLOUD_CONTEXT` unset, a request
carrying the well-formed header `"abc123/456;o=1"` still gets a
synthesized trace and no span. -/
theorem c10_witness :
    deriveTraceSpan cfgSelf rng0 (reqWithHeader "abc123/456;o=1") = (synthTrace rng0, none) := by
  exact (c10_header_ignored_in_self_emit cfgSelf rfl rng0
    (reqWithHeader "abc123/456;o=1")).1

theorem make_parent_log_appends_one (cfg : Config)
    (h : cfg.useXCloudContext = false) (trace : String) (span : Option String)
    (req : Request) (resp : Response) (elapsed : Nat) (st : LogState) :
    ∃ e : LogEntry,
      (make_parent_log cfg trace span req resp elapsed st).parentSent =
        st.parentSent ++ [e]
      ∧ e.message = none ∧ e.trace = trace ∧ e.span_id = span
      ∧ e.http_request = some (buildRequestInfo cfg req resp elapsed) := by
  refine ⟨{ message := none
            severity :=
              if st.mloglevels.length = 0 then
                if resp.status_code ≥ 500 then "ERROR"
                else if resp.status_code ≥ 400 then "WARNING"
                else "INFO"
              else pyMin st.mloglevels
            trace := trace
            span_id := span
            http_request := some (buildRequestInfo cfg req resp elapsed) },
    ?_, rfl, rfl, rfl, rfl⟩
  simp [make_parent_log, h]

/-- C6: with `GCP_LOG_USE_X_HTTP_CLOUD_CONTEXT` set, no parent entry is
ever sent (the parent transport's list is unchanged for any request),
while the tracker reset, the handler teardown and the per-record
severity tracking behave exactly as in self-emit mode. -/
theorem c6_external_mode_skips_parent_only (cfg : Config)
    (h : cfg.useXCloudContext = true) (rng : Nat → Nat) (req : Request)
    (records : List LogRecord) (resp : Response) (elapsed : Nat)
    (init : LogState) :
    ((call cfg rng req records (Except.ok resp) elapsed init).1).parentSent = init.parentSent
    ∧ ((call cfg rng req records (Except.ok resp) elapsed init).1).mloglevels = []
    ∧ ((call { cfg with useXCloudContext := false } rng req records
          (Except.ok resp) elapsed init).1).mloglevels = []
    ∧ ((call cfg rng req records (Except.ok resp) elapsed init).1).handlerRegistered = false
    ∧ ((call { cfg with useXCloudContext := false } rng req records
          (Except.ok resp) elapsed init).1).handlerRegistered = false
    ∧ (∀ (t1 t2 : String) (s1 s2 : Option String) (st : LogState),
        ((records.foldl (fun s r => emit cfg t1 s1 r s) st).mloglevels) =
          ((records.foldl (fun s r =>
              emit { cfg with useXCloudContext := false } t2 s2 r s) st).mloglevels)) := by
  refine ⟨?_, ?_, ?_, rfl, rfl, ?_⟩
  · simp [call, make_parent_log, h, foldl_emit_parentSent]
  · simp [call, make_parent_log, h]
  · simp [call, make_parent_log]
  · intro t1 t2 s1 s2 st
    rw [foldl_emit_mloglevels, foldl_emit_mloglevels]

/-- C6 witness: in external-propagation mode a request with one ERROR
child record sends nothing on the parent transport yet still forwards
the child record, resets the tracker and removes the handler. -/
theorem c6_witness :
    ((call cfgExt rng0 reqPlain [{ levelname := "ERROR", msg := "boom" }]
        (Except.ok (respOf 200)) 5 st0).1).parentSent = []
    ∧ ((call cfgExt rng0 reqPlain [{ levelname := "ERROR", msg := "boom" }]
        (Except.ok (respOf 200)) 5 st0).1).mloglevels = []
    ∧ ((call cfgExt rng0 reqPlain [{ levelname := "ERROR", msg := "boom" }]
        (Except.ok (respOf 200)) 5 st0).1).handlerRegistered = false := by
  obtain ⟨h1, h2, -, h4, -, -⟩ :=
    c6_external_mode_skips_parent_only cfgExt rfl rng0 reqPlain
      [{ levelname := "ERROR", msg := "boom" }] (respOf 200) 5 st0
  exact ⟨by simpa [st0] using h1, h2, h4⟩

/-- C9: in self-emit mode a completed request appends exactly one entry
to the parent transport; its message is absent, its `http_request`
record carries the response's status code, and its latency is the
elapsed time rendered with exactly 5 decimal digits of seconds. -/
theorem c9_single_parent_entry (cfg : Config)
    (h : cfg.useXCloudContext = false) (rng : Nat → Nat) (req : Request)
    (records : List LogRecord) (resp : Response) (elapsed : Nat)
    (init : LogState) :
    ∃ e : LogEntry,
      ((call cfg rng req records (Except.ok resp) elapsed init).1).parentSent =
        init.parentSent ++ [e]
      ∧ e.message = none
      ∧ e.http_request = some (buildRequestInfo cfg req resp elapsed)
      ∧ (buildRequestInfo cfg req resp elapsed).status = resp.status_code
      ∧ (buildRequestInfo cfg req resp elapsed).latency = formatLatency elapsed
      ∧ formatLatency elapsed =
          toString (elapsed / 100000) ++ "." ++ pad5 (elapsed % 100000) ++ "s"
      ∧ (pad5 (elapsed % 100000)).length = 5 := by
  obtain ⟨e, he1, he2, -, -, he5⟩ :=
    make_parent_log_appends_one cfg h
      ("projects/" ++ cfg.project ++ "/traces/" ++ (deriveTraceSpan cfg rng req).1)
      (deriveTraceSpan cfg rng req).2 req resp elapsed
      (records.foldl (fun s r =>
        emit cfg ("projects/" ++ cfg.project ++ "/traces/" ++ (deriveTraceSpan cfg rng req).1)
          (deriveTraceSpan cfg rng req).2 r s)
        { init with handlerRegistered := true })
  refine ⟨e, ?_, he2, he5, rfl, rfl, rfl, rfl⟩
  show (make_parent_log cfg _ _ req resp elapsed _).parentSent = init.parentSent ++ [e]
  rw [he1, foldl_emit_parentSent]

/-- C9 witness: a request with no child records and a 200 response after
0.12345 s sends exactly one parent entry with no message, status 200 and
latency `"0.12345s"`. -/
theorem c9_witness :
    ∃ e : LogEntry,
      ((call cfgSelf rng0 reqPlain [] (Except.ok (respOf 200)) 12345 st0).1).parentSent = [e]
      ∧ e.message = none
      ∧ (buildRequestInfo cfgSelf reqPlain (respOf 200) 12345).status = 200
      ∧ (buildRequestInfo cfgSelf reqPlain (respOf 200) 12345).latency = "0.12345s" := by
  obtain ⟨e, h1, h2, -, h4, h5, -, -⟩ :=
    c9_single_parent_entry cfgSelf rfl rng0 reqPlain [] (respOf 200) 12345 st0
  exact ⟨e, by simpa [st0] using h1, h2, h4, by rw [h5]; decide⟩

end GcpLogging
